import Mathlib

/-!
Verification of the Traceix SDK client (src/python/traceix_sdk.py).

The Python module is a thin HTTP client.  We embed it shallowly:
* the process environment is a function `String → Option String`;
* the filesystem (`open(filename, "rb")`) is a function returning either an
  error message (the raised `OSError`) or an opaque file handle;
* the network (`requests.post`) is a function from a request to either an
  exception (`Except.error ()`, matching the bare `except:`) or a response
  whose body either decodes to a JSON value or fails to decode
  (`jsonBody = none` models `Response.json()` raising);
* every public operation returns `Except Exc (Option JsonVal)` — a raised
  Python exception on the left, a returned value (`None` or decoded JSON)
  on the right — paired with the list of requests actually handed to the
  network transport, in order.
-/

namespace Traceix

/-- Process environment: `os.getenv` / `os.environ.get`. -/
abbrev Env := String → Option String

/-- Opaque handle returned by `open(filename, "rb")`. -/
abbrev FileHandle := Nat

/-- Filesystem: `open` either raises (error message) or yields a handle. -/
abbrev FS := String → Except String FileHandle

/-- A decoded JSON value, kept opaque (the SDK passes it through unchanged). -/
abbrev JsonVal := String

/-- The `files=` payload built by `__build_file_data`: a single field named
`file` holding `(filename, handle, "application/octet-stream")`. -/
structure FileData where
  file : String × FileHandle × String
deriving DecidableEq, Repr

/-- The body attached to a POST: nothing, a JSON mapping, or a file upload. -/
inductive Body where
  | empty : Body
  | jsonData (kvs : List (String × String)) : Body
  | filesData (f : FileData) : Body
deriving DecidableEq, Repr

/-- One outbound HTTP request as assembled by the SDK. -/
structure Request where
  url : String
  headers : List (String × String)
  body : Body
deriving DecidableEq, Repr

/-- A response whose body either decodes (`some v`) or makes `Response.json()`
raise (`none`). -/
structure HttpResponse where
  jsonBody : Option JsonVal
deriving DecidableEq, Repr

/-- The network transport: `requests.post` either raises (caught by the bare
`except:`) or returns a response. -/
abbrev Network := Request → Except Unit HttpResponse

/-- Python-level exceptions of the SDK.  `fsError` is the `OSError` from
`open`; `jsonDecodeError` is the exception raised by `Response.json()`. -/
inductive Exc where
  | noApiKey (msg : String) : Exc
  | invalidSearchType (msg : String) : Exc
  | noUuidProvided (msg : String) : Exc
  | fsError (msg : String) : Exc
  | jsonDecodeError : Exc
deriving DecidableEq, Repr

/-- The class attribute `TraceixSdk.sdk_version`. -/
def sdk_version : String := "0.0.0.1"

/-- The client object after a successful `__init__`. -/
structure TraceixSdk where
  api_key : String
  base_url : String
deriving DecidableEq, Repr

/-- `TraceixSdk.__init__`: take the explicit key, else the environment
variable `TRACEIX_API_KEY`; raise `NoApiKey` when the result is `None` or
empty; otherwise store the key and the fixed base URL. -/
def TraceixSdk.init (env : Env) (api_key : Option String) : Except Exc TraceixSdk :=
  let key : Option String :=
    match api_key with
    | none => env "TRACEIX_API_KEY"
    | some k => some k
  match key with
  | none => Except.error (Exc.noApiKey "You did not provide an API key")
  | some k =>
      if k = "" then Except.error (Exc.noApiKey "You did not provide an API key")
      else Except.ok ⟨k, "https://ai.perkinsfund.org"⟩

/-- Host data supplied by Python's `platform` module. -/
structure PlatformInfo where
  platform : String
  python_version : String
deriving DecidableEq, Repr

/-- `TraceixSdk.__build_user_agent`. -/
def buildUserAgent (env : Env) (pinfo : PlatformInfo) : String :=
  let telemetry_disabled : Bool := env "TRACEIX_DISABLE_TELEMETRY" == some "1"
  let user_agent := "Traceix/" ++ sdk_version
  if !telemetry_disabled then
    user_agent ++ " (" ++ pinfo.platform ++ " v" ++ pinfo.python_version ++ ")"
  else
    user_agent

/-- `TraceixSdk.__build_headers`. -/
def TraceixSdk.buildHeaders (sdk : TraceixSdk) (env : Env) (pinfo : PlatformInfo) :
    List (String × String) :=
  [("x-api-key", sdk.api_key), ("user-agent", buildUserAgent env pinfo)]

/-- `TraceixSdk.__build_url`: an f-string gluing base and path with one `/`. -/
def TraceixSdk.buildUrl (sdk : TraceixSdk) (path : String) : String :=
  sdk.base_url ++ "/" ++ path

/-- `TraceixSdk.__build_file_data`: `open` may raise (the error propagates);
on success wrap the handle as a single-part upload. -/
def buildFileData (fs : FS) (filename : String) : Except Exc FileData :=
  match fs filename with
  | Except.error e => Except.error (Exc.fsError e)
  | Except.ok fh => Except.ok ⟨(filename, fh, "application/octet-stream")⟩

/-- Result of one public operation: a raised exception or a returned value,
paired with the trace of requests handed to the transport. -/
abbrev OpResult := Except Exc (Option JsonVal) × List Request

/-- `TraceixSdk.ai_prediction`. -/
def TraceixSdk.ai_prediction (sdk : TraceixSdk) (env : Env) (pinfo : PlatformInfo)
    (fs : FS) (net : Network) (filename : String) : OpResult :=
  let url := sdk.buildUrl "/api/traceix/v1/upload"
  let headers := sdk.buildHeaders env pinfo
  match buildFileData fs filename with
  | Except.error e => (Except.error e, [])
  | Except.ok post_data =>
    let r : Request := ⟨url, headers, Body.filesData post_data⟩
    match net r with
    | Except.error _ => (Except.ok none, [r])
    | Except.ok resp =>
      match resp.jsonBody with
      | some v => (Except.ok (some v), [r])
      | none => (Except.error Exc.jsonDecodeError, [r])

/-- `TraceixSdk.check_status`: raises `NoUuidProvided` only when the argument
is `None`; any string (empty included) goes to the network. -/
def TraceixSdk.check_status (sdk : TraceixSdk) (env : Env) (pinfo : PlatformInfo)
    (net : Network) (uuid : Option String) : OpResult :=
  match uuid with
  | none =>
      (Except.error (Exc.noUuidProvided "You did not provide a UUID required by the endpoint"), [])
  | some u =>
    let url := sdk.buildUrl "/api/v1/traceix/status"
    let headers := sdk.buildHeaders env pinfo
    let post_data := [("uuid", u)]
    let r : Request := ⟨url, headers, Body.jsonData post_data⟩
    match net r with
    | Except.error _ => (Except.ok none, [r])
    | Except.ok resp =>
      match resp.jsonBody with
      | some v => (Except.ok (some v), [r])
      | none => (Except.error Exc.jsonDecodeError, [r])

/-- `TraceixSdk.hash_search`: `kwargs.get("search_type", "capa")`, URL chosen
by the search type, `InvalidSearchType` otherwise; the headers get an
explicit JSON content type before the POST. -/
def TraceixSdk.hash_search (sdk : TraceixSdk) (env : Env) (pinfo : PlatformInfo)
    (net : Network) (file_hash : String) (search_type : Option String) : OpResult :=
  let st := search_type.getD "capa"
  let url : Option String :=
    if st = "capa" then some (sdk.buildUrl "/api/traceix/v1/capa/search")
    else if st = "exif" then some (sdk.buildUrl "/api/traceix/v1/exif/search")
    else none
  match url with
  | none => (Except.error (Exc.invalidSearchType "Search must be of type capa or exif"), [])
  | some u =>
    let headers := sdk.buildHeaders env pinfo ++ [("content-type", "application/json")]
    let post_data := [("sha256", file_hash)]
    let r : Request := ⟨u, headers, Body.jsonData post_data⟩
    match net r with
    | Except.error _ => (Except.ok none, [r])
    | Except.ok resp =>
      match resp.jsonBody with
      | some v => (Except.ok (some v), [r])
      | none => (Except.error Exc.jsonDecodeError, [r])

/-- `TraceixSdk.capa_extraction`. -/
def TraceixSdk.capa_extraction (sdk : TraceixSdk) (env : Env) (pinfo : PlatformInfo)
    (fs : FS) (net : Network) (filename : String) : OpResult :=
  let url := sdk.buildUrl "/api/traceix/v1/capa"
  let headers := sdk.buildHeaders env pinfo
  match buildFileData fs filename with
  | Except.error e => (Except.error e, [])
  | Except.ok post_data =>
    let r : Request := ⟨url, headers, Body.filesData post_data⟩
    match net r with
    | Except.error _ => (Except.ok none, [r])
    | Except.ok resp =>
      match resp.jsonBody with
      | some v => (Except.ok (some v), [r])
      | none => (Except.error Exc.jsonDecodeError, [r])

/-- `TraceixSdk.exif_extraction`. -/
def TraceixSdk.exif_extraction (sdk : TraceixSdk) (env : Env) (pinfo : PlatformInfo)
    (fs : FS) (net : Network) (filename : String) : OpResult :=
  let url := sdk.buildUrl "/api/traceix/v1/exif"
  let headers := sdk.buildHeaders env pinfo
  match buildFileData fs filename with
  | Except.error e => (Except.error e, [])
  | Except.ok post_data =>
    let r : Request := ⟨url, headers, Body.filesData post_data⟩
    match net r with
    | Except.error _ => (Except.ok none, [r])
    | Except.ok resp =>
      match resp.jsonBody with
      | some v => (Except.ok (some v), [r])
      | none => (Except.error Exc.jsonDecodeError, [r])

/-- `TraceixSdk.full_upload`: the three component calls, strictly in order;
an exception raised by a component propagates and stops the sequence. -/
def TraceixSdk.full_upload (sdk : TraceixSdk) (env : Env) (pinfo : PlatformInfo)
    (fs : FS) (net : Network) (filename : String) :
    Except Exc (Option JsonVal × Option JsonVal × Option JsonVal) × List Request :=
  match sdk.ai_prediction env pinfo fs net filename with
  | (Except.error e, t1) => (Except.error e, t1)
  | (Except.ok ai_data, t1) =>
    match sdk.capa_extraction env pinfo fs net filename with
    | (Except.error e, t2) => (Except.error e, t1 ++ t2)
    | (Except.ok capa_status, t2) =>
      match sdk.exif_extraction env pinfo fs net filename with
      | (Except.error e, t3) => (Except.error e, t1 ++ t2 ++ t3)
      | (Except.ok exif_data, t3) =>
          (Except.ok (ai_data, capa_status, exif_data), t1 ++ t2 ++ t3)

/-- `TraceixSdk.list_all_ipfs_datasets`: headers only, no body. -/
def TraceixSdk.list_all_ipfs_datasets (sdk : TraceixSdk) (env : Env)
    (pinfo : PlatformInfo) (net : Network) : OpResult :=
  let url := sdk.buildUrl "/api/traceix/v1/ipfs/listall"
  let headers := sdk.buildHeaders env pinfo
  let r : Request := ⟨url, headers, Body.empty⟩
  match net r with
  | Except.error _ => (Except.ok none, [r])
  | Except.ok resp =>
    match resp.jsonBody with
    | some v => (Except.ok (some v), [r])
    | none => (Except.error Exc.jsonDecodeError, [r])

/-- `TraceixSdk.get_public_ipfs_dataset`. -/
def TraceixSdk.get_public_ipfs_dataset (sdk : TraceixSdk) (env : Env)
    (pinfo : PlatformInfo) (net : Network) (cid : String) : OpResult :=
  let url := sdk.buildUrl "/api/traceix/v1/ipfs/search"
  let headers := sdk.buildHeaders env pinfo
  let post_data := [("cid", cid)]
  let r : Request := ⟨url, headers, Body.jsonData post_data⟩
  match net r with
  | Except.error _ => (Except.ok none, [r])
  | Except.ok resp =>
    match resp.jsonBody with
    | some v => (Except.ok (some v), [r])
    | none => (Except.error Exc.jsonDecodeError, [r])

/-- `TraceixSdk.search_ipfs_dataset_by_hash`. -/
def TraceixSdk.search_ipfs_dataset_by_hash (sdk : TraceixSdk) (env : Env)
    (pinfo : PlatformInfo) (net : Network) (file_hash : String) : OpResult :=
  let url := sdk.buildUrl "/api/traceix/v1/ipfs/find"
  let headers := sdk.buildHeaders env pinfo
  let post_data := [("sha_hash", file_hash)]
  let r : Request := ⟨url, headers, Body.jsonData post_data⟩
  match net r with
  | Except.error _ => (Except.ok none, [r])
  | Except.ok resp =>
    match resp.jsonBody with
    | some v => (Except.ok (some v), [r])
    | none => (Except.error Exc.jsonDecodeError, [r])

/-! ### Concrete fixtures for witnesses and counterexamples -/

/-- An empty environment. -/
def env0 : Env := fun _ => none

/-- An environment carrying a key in `TRACEIX_API_KEY`. -/
def envWithKey : Env := fun n => if n = "TRACEIX_API_KEY" then some "envkey" else none

/-- An environment that opts out of telemetry. -/
def envNoTelemetry : Env := fun n => if n = "TRACEIX_DISABLE_TELEMETRY" then some "1" else none

/-- Fixed host data. -/
def pinfo0 : PlatformInfo := ⟨"Linux-6.1", "3.11.2"⟩

/-- A client as produced by a successful construction. -/
def sdk0 : TraceixSdk := ⟨"key", "https://ai.perkinsfund.org"⟩

/-- A filesystem on which every open succeeds. -/
def fsOk : FS := fun _ => Except.ok 0

/-- A filesystem on which every open raises. -/
def fsErr : FS := fun _ => Except.error "No such file or directory"

/-- A transport on which every POST raises. -/
def netRaise : Network := fun _ => Except.error ()

/-- A transport returning a response whose body fails to decode as JSON. -/
def netBad : Network := fun _ => Except.ok ⟨none⟩

/-- A transport returning a response that decodes to the JSON value `resp`. -/
def netOk : Network := fun _ => Except.ok ⟨some "resp"⟩

/-- The user agent produced for `env0` and `pinfo0`. -/
def ua0 : String := "Traceix/0.0.0.1 (Linux-6.1 v3.11.2)"

/-- The headers produced by `sdk0` for `env0` and `pinfo0`. -/
def headers0 : List (String × String) := [("x-api-key", "key"), ("user-agent", ua0)]

/-- The file payload built for a path under `fsOk`. -/
def fd0 (f : String) : FileData := ⟨(f, 0, "application/octet-stream")⟩

/-- The request `ai_prediction` issues for the file `f` under the fixtures. -/
def reqUpload : Request :=
  ⟨"https://ai.perkinsfund.org//api/traceix/v1/upload", headers0, Body.filesData (fd0 "f")⟩

/-- The request `capa_extraction` issues for the file `f` under the fixtures. -/
def reqCapa : Request :=
  ⟨"https://ai.perkinsfund.org//api/traceix/v1/capa", headers0, Body.filesData (fd0 "f")⟩

/-- The request `exif_extraction` issues for the file `f` under the fixtures. -/
def reqExif : Request :=
  ⟨"https://ai.perkinsfund.org//api/traceix/v1/exif", headers0, Body.filesData (fd0 "f")⟩

end Traceix

namespace Traceix

/-! ### Helper lemmas about the request traces of each operation -/

theorem traceUrl_ai_prediction (sdk : TraceixSdk) (env : Env) (pinfo : PlatformInfo)
    (fs : FS) (net : Network) (filename : String) :
    ∀ r ∈ (sdk.ai_prediction env pinfo fs net filename).snd,
      r.url = sdk.buildUrl "/api/traceix/v1/upload" := by
  intro r hr
  simp only [TraceixSdk.ai_prediction] at hr
  split at hr <;> (try split at hr) <;> (try split at hr) <;> simp_all

theorem traceUrl_capa_extraction (sdk : TraceixSdk) (env : Env) (pinfo : PlatformInfo)
    (fs : FS) (net : Network) (filename : String) :
    ∀ r ∈ (sdk.capa_extraction env pinfo fs net filename).snd,
      r.url = sdk.buildUrl "/api/traceix/v1/capa" := by
  intro r hr
  simp only [TraceixSdk.capa_extraction] at hr
  split at hr <;> (try split at hr) <;> (try split at hr) <;> simp_all

theorem traceUrl_exif_extraction (sdk : TraceixSdk) (env : Env) (pinfo : PlatformInfo)
    (fs : FS) (net : Network) (filename : String) :
    ∀ r ∈ (sdk.exif_extraction env pinfo fs net filename).snd,
      r.url = sdk.buildUrl "/api/traceix/v1/exif" := by
  intro r hr
  simp only [TraceixSdk.exif_extraction] at hr
  split at hr <;> (try split at hr) <;> (try split at hr) <;> simp_all

theorem traceUrl_check_status (sdk : TraceixSdk) (env : Env) (pinfo : PlatformInfo)
    (net : Network) (u : String) :
    ∀ r ∈ (sdk.check_status env pinfo net (some u)).snd,
      r.url = sdk.buildUrl "/api/v1/traceix/status" := by
  intro r hr
  simp only [TraceixSdk.check_status] at hr
  split at hr <;> (try split at hr) <;> simp_all

theorem traceUrl_get_public (sdk : TraceixSdk) (env : Env) (pinfo : PlatformInfo)
    (net : Network) (cid : String) :
    ∀ r ∈ (sdk.get_public_ipfs_dataset env pinfo net cid).snd,
      r.url = sdk.buildUrl "/api/traceix/v1/ipfs/search" := by
  intro r hr
  simp only [TraceixSdk.get_public_ipfs_dataset] at hr
  split at hr <;> (try split at hr) <;> simp_all

theorem traceUrl_search_by_hash (sdk : TraceixSdk) (env : Env) (pinfo : PlatformInfo)
    (net : Network) (h : String) :
    ∀ r ∈ (sdk.search_ipfs_dataset_by_hash env pinfo net h).snd,
      r.url = sdk.buildUrl "/api/traceix/v1/ipfs/find" := by
  intro r hr
  simp only [TraceixSdk.search_ipfs_dataset_by_hash] at hr
  split at hr <;> (try split at hr) <;> simp_all

/-! ### Claim theorems -/

/-- Claim C9: `list_all_ipfs_datasets` issues exactly one POST, carrying the
built headers and no JSON or file body at all. -/
theorem list_all_ipfs_datasets_headers_only (sdk : TraceixSdk) (env : Env)
    (pinfo : PlatformInfo) (net : Network) :
    (sdk.list_all_ipfs_datasets env pinfo net).snd
      = [⟨sdk.buildUrl "/api/traceix/v1/ipfs/listall", sdk.buildHeaders env pinfo, Body.empty⟩] := by
  simp only [TraceixSdk.list_all_ipfs_datasets]
  split <;> (try split) <;> rfl

/-- Claim C2 (amended): `check_status None` raises `NoUuidProvided` before any
network activity, but `check_status ""` does not raise it — the empty string is
sent to the network like any other identifier (exactly one request issued). -/
theorem check_status_only_none_raises (sdk : TraceixSdk) (env : Env)
    (pinfo : PlatformInfo) (net : Network) :
    sdk.check_status env pinfo net none
      = (Except.error (Exc.noUuidProvided "You did not provide a UUID required by the endpoint"), [])
    ∧ (sdk.check_status env pinfo net (some "")).snd.length = 1
    ∧ ∀ m, (sdk.check_status env pinfo net (some "")).fst ≠ Except.error (Exc.noUuidProvided m) := by
  refine ⟨rfl, ?_, ?_⟩
  · simp only [TraceixSdk.check_status]
    split <;> (try split) <;> rfl
  · intro m
    simp only [TraceixSdk.check_status]
    split <;> (try split) <;> simp

/-- Claim C2 counterexample: with a transport that responds normally,
`check_status ""` does not raise — it returns the decoded body, and one
request was issued to the network. -/
theorem check_status_empty_string_cex :
    (sdk0.check_status env0 pinfo0 netOk (some "")).fst = Except.ok (some "resp")
    ∧ (sdk0.check_status env0 pinfo0 netOk (some "")).snd.length = 1 := ⟨rfl, rfl⟩

/-- Claim C5: constructing with an absent key while the environment has no
non-empty key raises `NoApiKey`; constructing with the empty string raises
`NoApiKey` regardless of the environment. -/
theorem init_missing_credential (env : Env)
    (henv : env "TRACEIX_API_KEY" = none ∨ env "TRACEIX_API_KEY" = some "") :
    TraceixSdk.init env none = Except.error (Exc.noApiKey "You did not provide an API key")
    ∧ ∀ env2 : Env, TraceixSdk.init env2 (some "")
        = Except.error (Exc.noApiKey "You did not provide an API key") := by
  constructor
  · rcases henv with h | h <;> simp [TraceixSdk.init, h]
  · intro env2; rfl

/-- Claim C5 witness: the empty environment satisfies the hypothesis. -/
theorem init_missing_credential_witness :
    TraceixSdk.init env0 none = Except.error (Exc.noApiKey "You did not provide an API key")
    ∧ ∀ env2 : Env, TraceixSdk.init env2 (some "")
        = Except.error (Exc.noApiKey "You did not provide an API key") :=
  init_missing_credential env0 (Or.inl rfl)

/-- Claim C10: a non-empty explicit key is stored unchanged, and construction
does not depend on the environment when an explicit key is given. -/
theorem init_stores_explicit_key (env1 env2 : Env) (k : String) (hk : k ≠ "") :
    TraceixSdk.init env1 (some k) = Except.ok ⟨k, "https://ai.perkinsfund.org"⟩
    ∧ TraceixSdk.init env1 (some k) = TraceixSdk.init env2 (some k) := by
  constructor
  · simp [TraceixSdk.init, hk]
  · rfl

/-- Claim C10 witness: the key `key` against the empty environment and one
that carries a different key in `TRACEIX_API_KEY`. -/
theorem init_stores_explicit_key_witness :
    TraceixSdk.init env0 (some "key") = Except.ok ⟨"key", "https://ai.perkinsfund.org"⟩
    ∧ TraceixSdk.init env0 (some "key") = TraceixSdk.init envWithKey (some "key") :=
  init_stores_explicit_key env0 envWithKey "key" (by decide)

end Traceix

namespace Traceix

/-- Claim C4: `hash_search` with `search_type = "capa"` (also the default when
the option is omitted) targets the capa-search path, `"exif"` targets the
exif-search path, both with an explicit JSON content-type header; any other
value raises `InvalidSearchType` before any network activity occurs. -/
theorem hash_search_spec (sdk : TraceixSdk) (env : Env) (pinfo : PlatformInfo)
    (net : Network) (h : String) :
    ((sdk.hash_search env pinfo net h (some "capa")).snd.length = 1
      ∧ ∀ r ∈ (sdk.hash_search env pinfo net h (some "capa")).snd,
          r.url = sdk.buildUrl "/api/traceix/v1/capa/search"
          ∧ ("content-type", "application/json") ∈ r.headers)
    ∧ sdk.hash_search env pinfo net h none = sdk.hash_search env pinfo net h (some "capa")
    ∧ ((sdk.hash_search env pinfo net h (some "exif")).snd.length = 1
      ∧ ∀ r ∈ (sdk.hash_search env pinfo net h (some "exif")).snd,
          r.url = sdk.buildUrl "/api/traceix/v1/exif/search"
          ∧ ("content-type", "application/json") ∈ r.headers)
    ∧ ∀ s : String, s ≠ "capa" → s ≠ "exif" →
        sdk.hash_search env pinfo net h (some s)
          = (Except.error (Exc.invalidSearchType "Search must be of type capa or exif"), []) := by
  refine ⟨⟨?_, ?_⟩, rfl, ⟨?_, ?_⟩, ?_⟩
  · simp only [TraceixSdk.hash_search]
    split <;> (try split) <;> (try split) <;> simp_all
  · intro r hr
    simp only [TraceixSdk.hash_search] at hr
    split at hr <;> (try split at hr) <;> (try split at hr) <;> simp_all
  · simp only [TraceixSdk.hash_search]
    split <;> (try split) <;> (try split) <;> simp_all
  · intro r hr
    simp only [TraceixSdk.hash_search] at hr
    split at hr <;> (try split at hr) <;> (try split at hr) <;> simp_all
  · intro s h1 h2
    simp only [TraceixSdk.hash_search, Option.getD]
    rw [if_neg h1, if_neg h2]

/-- Claim C4 witness: the invalid search type `bogus` raises before any
network activity. -/
theorem hash_search_spec_witness :
    sdk0.hash_search env0 pinfo0 netOk "abc" (some "bogus")
      = (Except.error (Exc.invalidSearchType "Search must be of type capa or exif"), []) :=
  (hash_search_spec sdk0 env0 pinfo0 netOk "abc").2.2.2 "bogus" (by decide) (by decide)

/-- Claim C7: the user-agent string always begins with `Traceix/0.0.0.1`; the
platform and runtime details are appended exactly when the telemetry opt-out
variable is not the literal string `1`. -/
theorem user_agent_spec (env : Env) (pinfo : PlatformInfo) :
    (∃ rest, buildUserAgent env pinfo = "Traceix/0.0.0.1" ++ rest)
    ∧ (env "TRACEIX_DISABLE_TELEMETRY" = some "1" →
        buildUserAgent env pinfo = "Traceix/0.0.0.1")
    ∧ (env "TRACEIX_DISABLE_TELEMETRY" ≠ some "1" →
        buildUserAgent env pinfo
          = "Traceix/0.0.0.1"
              ++ (" (" ++ (pinfo.platform ++ (" v" ++ (pinfo.python_version ++ ")"))))) := by
  by_cases hT : env "TRACEIX_DISABLE_TELEMETRY" = some "1"
  · refine ⟨⟨"", ?_⟩, fun _ => ?_, fun hc => absurd hT hc⟩ <;>
      simp [buildUserAgent, hT, sdk_version, String.append_empty]
  · have hb : (env "TRACEIX_DISABLE_TELEMETRY" == some "1") = false := by
      simpa using hT
    have hua : buildUserAgent env pinfo
        = "Traceix/0.0.0.1"
            ++ (" (" ++ (pinfo.platform ++ (" v" ++ (pinfo.python_version ++ ")")))) := by
      simp [buildUserAgent, hb, sdk_version, String.append_assoc]
      conv_rhs => rw [← String.append_assoc]
      rfl
    exact ⟨⟨" (" ++ (pinfo.platform ++ (" v" ++ (pinfo.python_version ++ ")"))), hua⟩,
        fun hc => absurd hc hT, fun _ => hua⟩

/-- Claim C7 witness: with the opt-out flag set the agent is the bare product
string; with an empty environment the platform details are appended. -/
theorem user_agent_spec_witness :
    buildUserAgent envNoTelemetry pinfo0 = "Traceix/0.0.0.1"
    ∧ buildUserAgent env0 pinfo0
        = "Traceix/0.0.0.1" ++ (" (" ++ ("Linux-6.1" ++ (" v" ++ ("3.11.2" ++ ")")))) :=
  ⟨(user_agent_spec envNoTelemetry pinfo0).2.1 rfl,
   (user_agent_spec env0 pinfo0).2.2 (by decide)⟩

end Traceix

namespace Traceix

theorem traceUrl_hash_search_capa (sdk : TraceixSdk) (env : Env) (pinfo : PlatformInfo)
    (net : Network) (h : String) :
    ∀ r ∈ (sdk.hash_search env pinfo net h (some "capa")).snd,
      r.url = sdk.buildUrl "/api/traceix/v1/capa/search" := by
  intro r hr
  simp only [TraceixSdk.hash_search] at hr
  split at hr <;> (try split at hr) <;> (try split at hr) <;> simp_all

theorem traceUrl_hash_search_exif (sdk : TraceixSdk) (env : Env) (pinfo : PlatformInfo)
    (net : Network) (h : String) :
    ∀ r ∈ (sdk.hash_search env pinfo net h (some "exif")).snd,
      r.url = sdk.buildUrl "/api/traceix/v1/exif/search" := by
  intro r hr
  simp only [TraceixSdk.hash_search] at hr
  split at hr <;> (try split at hr) <;> (try split at hr) <;> simp_all

theorem traceUrl_list_all (sdk : TraceixSdk) (env : Env) (pinfo : PlatformInfo)
    (net : Network) :
    ∀ r ∈ (sdk.list_all_ipfs_datasets env pinfo net).snd,
      r.url = sdk.buildUrl "/api/traceix/v1/ipfs/listall" := by
  intro r hr
  simp only [TraceixSdk.list_all_ipfs_datasets] at hr
  split at hr <;> (try split at hr) <;> simp_all

/-- Claim C8: a filesystem error from building the file payload propagates out
of every file-upload operation: no request is issued and the error is not
converted to the absence marker. -/
theorem file_error_propagates (sdk : TraceixSdk) (env : Env) (pinfo : PlatformInfo)
    (fs : FS) (net : Network) (filename : String) (e : String)
    (hfs : fs filename = Except.error e) :
    sdk.ai_prediction env pinfo fs net filename = (Except.error (Exc.fsError e), [])
    ∧ sdk.capa_extraction env pinfo fs net filename = (Except.error (Exc.fsError e), [])
    ∧ sdk.exif_extraction env pinfo fs net filename = (Except.error (Exc.fsError e), [])
    ∧ sdk.full_upload env pinfo fs net filename = (Except.error (Exc.fsError e), []) := by
  have h1 : sdk.ai_prediction env pinfo fs net filename
      = (Except.error (Exc.fsError e), []) := by
    simp [TraceixSdk.ai_prediction, buildFileData, hfs]
  have h2 : sdk.capa_extraction env pinfo fs net filename
      = (Except.error (Exc.fsError e), []) := by
    simp [TraceixSdk.capa_extraction, buildFileData, hfs]
  have h3 : sdk.exif_extraction env pinfo fs net filename
      = (Except.error (Exc.fsError e), []) := by
    simp [TraceixSdk.exif_extraction, buildFileData, hfs]
  refine ⟨h1, h2, h3, ?_⟩
  simp [TraceixSdk.full_upload, h1]

/-- Claim C8 witness: a filesystem on which every open raises. -/
theorem file_error_propagates_witness :
    sdk0.ai_prediction env0 pinfo0 fsErr netOk "f"
      = (Except.error (Exc.fsError "No such file or directory"), [])
    ∧ sdk0.capa_extraction env0 pinfo0 fsErr netOk "f"
      = (Except.error (Exc.fsError "No such file or directory"), [])
    ∧ sdk0.exif_extraction env0 pinfo0 fsErr netOk "f"
      = (Except.error (Exc.fsError "No such file or directory"), [])
    ∧ sdk0.full_upload env0 pinfo0 fsErr netOk "f"
      = (Except.error (Exc.fsError "No such file or directory"), []) :=
  file_error_propagates sdk0 env0 pinfo0 fsErr netOk "f" "No such file or directory" rfl

/-- Claim C1 (amended): when the network call itself raises, every operation
returns the absence marker `None` instead of propagating the failure; the
suppression covers only the `requests.post` call, not the JSON decoding of a
received response. -/
theorem net_raise_returns_none (sdk : TraceixSdk) (env : Env) (pinfo : PlatformInfo)
    (fs : FS) (net : Network) (filename u h cid : String) (fh : FileHandle)
    (hnet : ∀ r, net r = Except.error ())
    (hfs : fs filename = Except.ok fh) :
    (sdk.ai_prediction env pinfo fs net filename).fst = Except.ok none
    ∧ (sdk.check_status env pinfo net (some u)).fst = Except.ok none
    ∧ (sdk.hash_search env pinfo net h (some "capa")).fst = Except.ok none
    ∧ (sdk.hash_search env pinfo net h (some "exif")).fst = Except.ok none
    ∧ (sdk.capa_extraction env pinfo fs net filename).fst = Except.ok none
    ∧ (sdk.exif_extraction env pinfo fs net filename).fst = Except.ok none
    ∧ (sdk.list_all_ipfs_datasets env pinfo net).fst = Except.ok none
    ∧ (sdk.get_public_ipfs_dataset env pinfo net cid).fst = Except.ok none
    ∧ (sdk.search_ipfs_dataset_by_hash env pinfo net h).fst = Except.ok none
    ∧ (sdk.full_upload env pinfo fs net filename).fst = Except.ok (none, none, none) := by
  refine ⟨?_, ?_, ?_, ?_, ?_, ?_, ?_, ?_, ?_, ?_⟩ <;>
    simp [TraceixSdk.ai_prediction, TraceixSdk.check_status, TraceixSdk.hash_search,
      TraceixSdk.capa_extraction, TraceixSdk.exif_extraction, TraceixSdk.full_upload,
      TraceixSdk.list_all_ipfs_datasets, TraceixSdk.get_public_ipfs_dataset,
      TraceixSdk.search_ipfs_dataset_by_hash, buildFileData, Option.getD, hfs, hnet]

/-- Claim C1 witness: the always-raising transport and an always-readable
filesystem satisfy the hypotheses. -/
theorem net_raise_returns_none_witness :
    (sdk0.ai_prediction env0 pinfo0 fsOk netRaise "f").fst = Except.ok none
    ∧ (sdk0.check_status env0 pinfo0 netRaise (some "u")).fst = Except.ok none
    ∧ (sdk0.hash_search env0 pinfo0 netRaise "h" (some "capa")).fst = Except.ok none
    ∧ (sdk0.hash_search env0 pinfo0 netRaise "h" (some "exif")).fst = Except.ok none
    ∧ (sdk0.capa_extraction env0 pinfo0 fsOk netRaise "f").fst = Except.ok none
    ∧ (sdk0.exif_extraction env0 pinfo0 fsOk netRaise "f").fst = Except.ok none
    ∧ (sdk0.list_all_ipfs_datasets env0 pinfo0 netRaise).fst = Except.ok none
    ∧ (sdk0.get_public_ipfs_dataset env0 pinfo0 netRaise "cid").fst = Except.ok none
    ∧ (sdk0.search_ipfs_dataset_by_hash env0 pinfo0 netRaise "h").fst = Except.ok none
    ∧ (sdk0.full_upload env0 pinfo0 fsOk netRaise "f").fst = Except.ok (none, none, none) :=
  net_raise_returns_none sdk0 env0 pinfo0 fsOk netRaise "f" "u" "h" "cid" 0
    (fun _ => rfl) rfl

/-- Claim C1 counterexample: a response whose body fails to decode makes the
operation raise the decode exception instead of returning `None`, because
`Response.json()` is evaluated outside the `try` block. -/
theorem json_decode_error_propagates_cex :
    (sdk0.check_status env0 pinfo0 netBad (some "u")).fst = Except.error Exc.jsonDecodeError
    ∧ (sdk0.check_status env0 pinfo0 netBad (some "u")).fst ≠ Except.ok none := by
  refine ⟨rfl, fun hcontra => ?_⟩
  rw [show (sdk0.check_status env0 pinfo0 netBad (some "u")).fst
      = Except.error Exc.jsonDecodeError from rfl] at hcontra
  exact Except.noConfusion hcontra

/-- Claim C3 counterexample: the URL actually sent by `ai_prediction` contains
a double separator, because the path handed to the URL builder itself starts
with `/`. -/
theorem url_single_separator_cex :
    ((sdk0.ai_prediction env0 pinfo0 fsOk netOk "f").snd.map Request.url)
      = ["https://ai.perkinsfund.org//api/traceix/v1/upload"]
    ∧ "https://ai.perkinsfund.org//api/traceix/v1/upload"
        ≠ "https://ai.perkinsfund.org" ++ "/" ++ "api/traceix/v1/upload" :=
  ⟨rfl, by decide⟩

/-- Claim C3 (amended): the URL builder inserts exactly one `/` between the
stored base address and the given path, but every operation passes a path that
already begins with `/`, so every request URL carries a double separator after
the base address; construction always stores the fixed base address. -/
theorem request_urls_double_slash (sdk : TraceixSdk) (env : Env) (pinfo : PlatformInfo)
    (fs : FS) (net : Network) (filename u h cid : String)
    (hbase : sdk.base_url = "https://ai.perkinsfund.org") :
    (∀ r ∈ (sdk.ai_prediction env pinfo fs net filename).snd,
        r.url = "https://ai.perkinsfund.org//api/traceix/v1/upload")
    ∧ (∀ r ∈ (sdk.check_status env pinfo net (some u)).snd,
        r.url = "https://ai.perkinsfund.org//api/v1/traceix/status")
    ∧ (∀ r ∈ (sdk.hash_search env pinfo net h (some "capa")).snd,
        r.url = "https://ai.perkinsfund.org//api/traceix/v1/capa/search")
    ∧ (∀ r ∈ (sdk.hash_search env pinfo net h (some "exif")).snd,
        r.url = "https://ai.perkinsfund.org//api/traceix/v1/exif/search")
    ∧ (∀ r ∈ (sdk.capa_extraction env pinfo fs net filename).snd,
        r.url = "https://ai.perkinsfund.org//api/traceix/v1/capa")
    ∧ (∀ r ∈ (sdk.exif_extraction env pinfo fs net filename).snd,
        r.url = "https://ai.perkinsfund.org//api/traceix/v1/exif")
    ∧ (∀ r ∈ (sdk.list_all_ipfs_datasets env pinfo net).snd,
        r.url = "https://ai.perkinsfund.org//api/traceix/v1/ipfs/listall")
    ∧ (∀ r ∈ (sdk.get_public_ipfs_dataset env pinfo net cid).snd,
        r.url = "https://ai.perkinsfund.org//api/traceix/v1/ipfs/search")
    ∧ (∀ r ∈ (sdk.search_ipfs_dataset_by_hash env pinfo net h).snd,
        r.url = "https://ai.perkinsfund.org//api/traceix/v1/ipfs/find")
    ∧ ∀ (e : Env) (ak : Option String) (s : TraceixSdk),
        TraceixSdk.init e ak = Except.ok s → s.base_url = "https://ai.perkinsfund.org" := by
  refine ⟨?_, ?_, ?_, ?_, ?_, ?_, ?_, ?_, ?_, ?_⟩
  · intro r hr
    rw [traceUrl_ai_prediction sdk env pinfo fs net filename r hr]
    simp only [TraceixSdk.buildUrl]
    rw [hbase]
    rfl
  · intro r hr
    rw [traceUrl_check_status sdk env pinfo net u r hr]
    simp only [TraceixSdk.buildUrl]
    rw [hbase]
    rfl
  · intro r hr
    rw [traceUrl_hash_search_capa sdk env pinfo net h r hr]
    simp only [TraceixSdk.buildUrl]
    rw [hbase]
    rfl
  · intro r hr
    rw [traceUrl_hash_search_exif sdk env pinfo net h r hr]
    simp only [TraceixSdk.buildUrl]
    rw [hbase]
    rfl
  · intro r hr
    rw [traceUrl_capa_extraction sdk env pinfo fs net filename r hr]
    simp only [TraceixSdk.buildUrl]
    rw [hbase]
    rfl
  · intro r hr
    rw [traceUrl_exif_extraction sdk env pinfo fs net filename r hr]
    simp only [TraceixSdk.buildUrl]
    rw [hbase]
    rfl
  · intro r hr
    rw [traceUrl_list_all sdk env pinfo net r hr]
    simp only [TraceixSdk.buildUrl]
    rw [hbase]
    rfl
  · intro r hr
    rw [traceUrl_get_public sdk env pinfo net cid r hr]
    simp only [TraceixSdk.buildUrl]
    rw [hbase]
    rfl
  · intro r hr
    rw [traceUrl_search_by_hash sdk env pinfo net h r hr]
    simp only [TraceixSdk.buildUrl]
    rw [hbase]
    rfl
  · intro e ak s hs
    simp only [TraceixSdk.init] at hs
    split at hs
    · simp at hs
    · split at hs
      · simp at hs
      · cases hs
        rfl

/-- Claim C3 witness: the upload request of the fixture run has the
double-separator URL. -/
theorem request_urls_double_slash_witness :
    reqUpload.url = "https://ai.perkinsfund.org//api/traceix/v1/upload" :=
  (request_urls_double_slash sdk0 env0 pinfo0 fsOk netOk "f" "u" "h" "cid" rfl).1
    reqUpload (by decide)

/-- Claim C6: when the three component calls succeed, `full_upload` returns
their results as an ordered triple and issues their requests strictly in
sequence: first the upload endpoint, then the capa endpoint, then the exif
endpoint. -/
theorem full_upload_sequential (sdk : TraceixSdk) (env : Env) (pinfo : PlatformInfo)
    (fs : FS) (net : Network) (filename : String)
    (a c x : Option JsonVal) (ta tc tx : List Request)
    (ha : sdk.ai_prediction env pinfo fs net filename = (Except.ok a, ta))
    (hc : sdk.capa_extraction env pinfo fs net filename = (Except.ok c, tc))
    (hx : sdk.exif_extraction env pinfo fs net filename = (Except.ok x, tx)) :
    sdk.full_upload env pinfo fs net filename = (Except.ok (a, c, x), ta ++ tc ++ tx)
    ∧ (∀ r ∈ ta, r.url = sdk.buildUrl "/api/traceix/v1/upload")
    ∧ (∀ r ∈ tc, r.url = sdk.buildUrl "/api/traceix/v1/capa")
    ∧ (∀ r ∈ tx, r.url = sdk.buildUrl "/api/traceix/v1/exif") := by
  refine ⟨?_, ?_, ?_, ?_⟩
  · simp [TraceixSdk.full_upload, ha, hc, hx]
  · have hta := traceUrl_ai_prediction sdk env pinfo fs net filename
    rw [ha] at hta
    exact hta
  · have htc := traceUrl_capa_extraction sdk env pinfo fs net filename
    rw [hc] at htc
    exact htc
  · have htx := traceUrl_exif_extraction sdk env pinfo fs net filename
    rw [hx] at htx
    exact htx

/-- Claim C6 witness: the fixture run succeeds on all three endpoints and
returns the ordered triple with the three requests in sequence. -/
theorem full_upload_sequential_witness :
    sdk0.full_upload env0 pinfo0 fsOk netOk "f"
      = (Except.ok (some "resp", some "resp", some "resp"),
          [reqUpload] ++ [reqCapa] ++ [reqExif])
    ∧ (∀ r ∈ [reqUpload], r.url = sdk0.buildUrl "/api/traceix/v1/upload")
    ∧ (∀ r ∈ [reqCapa], r.url = sdk0.buildUrl "/api/traceix/v1/capa")
    ∧ (∀ r ∈ [reqExif], r.url = sdk0.buildUrl "/api/traceix/v1/exif") :=
  full_upload_sequential sdk0 env0 pinfo0 fsOk netOk "f"
    (some "resp") (some "resp") (some "resp")
    [reqUpload] [reqCapa] [reqExif] rfl rfl rfl

end Traceix
